import Mathlib

/-!
Verification of the Smart Climate decision engine
(`custom_components/smart_climate/engine.py`) and the shared-device
arbitration / room-action logic of
(`custom_components/smart_climate/coordinator.py`).

Temperatures, offsets and thresholds are Python floats in the source;
they are modelled as rationals (`ℚ`).  Entity identifiers are strings.
The phase and profile constants (`PHASE_IDLE`/`PHASE_BOOST`/`PHASE_HOLD`,
`TYPE_NORMAL`/`TYPE_FAST`/`TYPE_EXTREME`) and the outdoor policy values
live in `const.py`, which is not part of the sources at hand; they are
three (resp. two) distinct string constants, modelled here as closed
inductive types.
-/

namespace SmartClimate

/-- Room phase: `PHASE_IDLE`, `PHASE_BOOST`, `PHASE_HOLD` from `const.py`. -/
inductive Phase
| idle
| boost
| hold
deriving DecidableEq, Repr

/-- Aggressiveness profile: `TYPE_NORMAL`, `TYPE_FAST`, `TYPE_EXTREME` from `const.py`. -/
inductive ControlType
| normal
| fast
| extreme
deriving DecidableEq, Repr

/-- Missing-outdoor policy: `allow` or `OUTDOOR_POLICY_BLOCK` from `const.py`. -/
inductive OutdoorPolicy
| allow
| block
deriving DecidableEq, Repr

/-- Dataclass `Thresholds` from `engine.py` (lines 11-16). -/
structure Thresholds where
  category2_diff : ℚ
  category3_diff : ℚ
deriving DecidableEq, Repr

/-- Minimum of a list, Python `min(values)`; only used on non-empty lists. -/
def minList : List ℚ → ℚ
| [] => 0
| x :: xs => xs.foldl min x

/-- Maximum of a list, Python `max(values)`; only used on non-empty lists. -/
def maxList : List ℚ → ℚ
| [] => 0
| x :: xs => xs.foldl max x

/-- Insert into a sorted list (helper for the sort underlying `statistics.median`). -/
def insertSorted (x : ℚ) : List ℚ → List ℚ
| [] => [x]
| y :: ys => if x ≤ y then x :: y :: ys else y :: insertSorted x ys

/-- Ascending insertion sort, the sorted view used by `statistics.median`. -/
def sortRat (l : List ℚ) : List ℚ := l.foldr insertSorted []

/-- Python `statistics.median`: sort; odd length gives the middle element,
even length the mean of the two middle elements.  Only used on non-empty
lists, as `aggregate_temperature` guards the empty case first. -/
def median (l : List ℚ) : ℚ :=
  let s := sortRat l
  let n := s.length
  if n % 2 = 1 then s.getD (n / 2) 0
  else (s.getD (n / 2 - 1) 0 + s.getD (n / 2) 0) / 2

/-- Function `aggregate_temperature` from `engine.py` (lines 19-31).  The method is a
configuration string; any unrecognised method falls through to the mean. -/
def aggregate_temperature (values : List ℚ) (method : String) : Option ℚ :=
  if values = [] then none
  else if method = "min" then some (minList values)
  else if method = "max" then some (maxList values)
  else if method = "median" then some (median values)
  else if method = "first" then some (values.headD 0)
  else some (values.foldl (· + ·) 0 / (values.length : ℚ))

/-- Function `select_category` from `engine.py` (lines 34-45). -/
def select_category (diff : ℚ) (thresholds : Thresholds) (ac_allowed : Bool) : ℕ :=
  let category : ℕ :=
    if diff < thresholds.category2_diff then 1
    else if diff < thresholds.category3_diff then 2
    else 3
  if category = 3 ∧ ac_allowed = false then 2 else category

/-- Function `within_target` from `engine.py` (lines 48-50). -/
def within_target (current target tolerance : ℚ) : Bool :=
  |current - target| ≤ tolerance

/-- Function `should_reenter_boost` from `engine.py` (lines 53-65). -/
def should_reenter_boost (current target tolerance delta : ℚ) (is_heating : Bool) : Bool :=
  if is_heating then
    current ≤ (target - tolerance) - delta
  else
    (target + tolerance) + delta ≤ current

/-- Function `next_phase_and_offset` from `engine.py` (lines 68-93). -/
def next_phase_and_offset (control_type : ControlType) (phase : Phase)
    (reached_target : Bool) (current_offset step_offset max_offset : ℚ)
    (elapsed_boost_seconds t_time : ℚ) : Phase × ℚ :=
  if reached_target then (Phase.hold, 0)
  else if phase = Phase.idle ∨ phase = Phase.hold then
    if control_type = ControlType.normal then (Phase.boost, min step_offset max_offset)
    else (Phase.boost, max_offset)
  else if phase = Phase.boost then
    if control_type = ControlType.normal ∧ t_time ≤ elapsed_boost_seconds then
      (Phase.boost, min (current_offset + step_offset) max_offset)
    else if control_type = ControlType.fast ∨ control_type = ControlType.extreme then
      (Phase.boost, max_offset)
    else (phase, current_offset)
  else (phase, current_offset)

/-- Function `compute_setpoint` from `engine.py` (lines 96-116): the `extreme`
profile returns the known hard limit in the favorable direction (device max
when heating, device min when cooling); every other case clamps
`target ± offset` on each side that is known. -/
def compute_setpoint (target : ℚ) (is_heating : Bool) (control_type : ControlType)
    (offset : ℚ) (climate_min_temp climate_max_temp : Option ℚ) : ℚ :=
  match control_type, is_heating, climate_min_temp, climate_max_temp with
  | ControlType.extreme, true, _, some hi => hi
  | ControlType.extreme, false, some lo, _ => lo
  | _, _, _, _ =>
    let raw := if is_heating then target + offset else target - offset
    let raw1 := match climate_min_temp with
      | some lo => max raw lo
      | none => raw
    match climate_max_temp with
    | some hi => min raw1 hi
    | none => raw1

/-- Function `mode_hvac` from `engine.py` (lines 119-121). -/
def mode_hvac (is_heating : Bool) : String :=
  if is_heating then "heat" else "cool"

/-- De-duplication keeping the first occurrence, as Python
`list(dict.fromkeys(selected))`: iterate in order, keep an element exactly
when it has not been seen yet. -/
def dedupFirstAux (seen : List String) : List String → List String
| [] => []
| x :: xs => if x ∈ seen then dedupFirstAux seen xs else x :: dedupFirstAux (x :: seen) xs

/-- Python `list(dict.fromkeys(l))`: first-occurrence de-duplication. -/
def dedupFirst (l : List String) : List String := dedupFirstAux [] l

/-- Function `merge_categories` from `engine.py` (lines 124-135): the loop
`for index in range(min(max(active_category, 1), 3))` concatenates the first
`min(max(n,1),3)` category lists, then de-duplicates keeping first occurrences. -/
def merge_categories (category_1 category_2 category_3 : List String)
    (active_category : ℤ) : List String :=
  let k := min (max active_category 1) 3
  let selected :=
    if k = 1 then category_1
    else if k = 2 then category_1 ++ category_2
    else category_1 ++ category_2 ++ category_3
  dedupFirst selected

/-- Python `s.startswith(p)`, stated on the character lists of the strings
(a string starts with `p` exactly when its character list has `p`'s
character list as a prefix). -/
def strStartsWith (s p : String) : Bool := p.data.isPrefixOf s.data

/-- Function `filter_weather_sensitive` from `engine.py` (lines 138-150). -/
def filter_weather_sensitive (entity_ids : List String)
    (weather_sensitive_climates : List String) (is_outdoor_allowed : Bool) : List String :=
  if is_outdoor_allowed then entity_ids
  else entity_ids.filter
    (fun entity_id =>
      ¬(strStartsWith entity_id "climate." ∧ entity_id ∈ weather_sensitive_climates))

/-- Static room configuration as built in `coordinator.py` `_load_configuration`
(lines 177-190); only the fields the decision logic reads are carried. -/
structure RoomConfig where
  room_id : String
  heat_category_1 : List String
  heat_category_2 : List String
  heat_category_3 : List String
  cool_category_1 : List String
  cool_category_2 : List String
  cool_category_3 : List String
  weather_sensitive_climates : List String
  shared_climates : List String
deriving DecidableEq, Repr

/-- Method `_ac_allowed` from `coordinator.py` (lines 567-573): with no outdoor
reading the missing-data policy decides; otherwise heating needs
`outdoor_temp ≥ min_outdoor_for_heatpump` and cooling
`outdoor_temp ≤ max_outdoor_for_cool`. -/
def ac_allowed (outdoor_temp : Option ℚ) (missing_policy : OutdoorPolicy)
    (min_outdoor_for_heatpump max_outdoor_for_cool : ℚ) (is_heating : Bool) : Bool :=
  match outdoor_temp with
  | none => missing_policy ≠ OutdoorPolicy.block
  | some t =>
    if is_heating then min_outdoor_for_heatpump ≤ t
    else t ≤ max_outdoor_for_cool

/-- The entity ids iterated for activation in `_async_apply_room_actions`
(`coordinator.py` lines 583-599): the cumulative category lists of the
demanded direction, passed through `filter_weather_sensitive` under the
current outdoor verdict. -/
def room_action_candidates (room : RoomConfig) (is_heating : Bool)
    (category : ℤ) (acAllowed : Bool) : List String :=
  let category_entities :=
    if is_heating then
      merge_categories room.heat_category_1 room.heat_category_2 room.heat_category_3 category
    else
      merge_categories room.cool_category_1 room.cool_category_2 room.cool_category_3 category
  filter_weather_sensitive category_entities room.weather_sensitive_climates acAllowed

/-- One shared-device demand tuple `(room_id, direction, diff)` as appended
in `_async_run_control_cycle` (`coordinator.py` lines 475-476, 501-502). -/
structure Demand where
  room_id : String
  direction : String
  diff : ℚ
deriving DecidableEq, Repr

/-- Python `max(climate_demands, key=lambda item: item[2])`: the first
demand with maximal `diff` (Python `max` keeps the earlier element on ties). -/
def max_demand : List Demand → Option Demand
| [] => none
| d :: ds => some (ds.foldl (fun best x => if best.diff < x.diff then x else best) d)

/-- Strategy dispatch of `_async_apply_shared` (`coordinator.py` lines
665-679).  `strategy` is the raw option string and `priority_room` the raw
configured value, empty when unset (Python truthiness of
`and priority_room`).  In the `priority_room` branch a missing priority
demand yields `none` (the code does `continue`); any unrecognised strategy
falls through to `max_demand`. -/
def select_shared_demand (strategy priority_room : String)
    (demands : List Demand) : Option Demand :=
  if strategy = "priority_room" ∧ priority_room ≠ "" then
    demands.find? (fun d => d.room_id = priority_room)
  else if strategy = "average_request" then
    let heat := demands.filter (fun d => d.direction = "heat")
    let cool := demands.filter (fun d => d.direction = "cool")
    if cool.length ≤ heat.length then
      some ⟨"avg", "heat", (heat.map Demand.diff).sum / (max heat.length 1 : ℕ)⟩
    else
      some ⟨"avg", "cool", (cool.map Demand.diff).sum / (max cool.length 1 : ℕ)⟩
  else
    max_demand demands

/-- The per-room runtime facts `_async_apply_shared` consults when building
`involved_rooms`: `_room_enabled(room_id)` and
`self._runtime[room_id].current_temp`. -/
structure RoomState where
  enabled : Bool
  current_temp : Option ℚ
deriving DecidableEq, Repr

/-- The `involved_rooms` filter of `_async_apply_shared` (`coordinator.py`
lines 654-660): rooms mapped to the shared device that are enabled, present
in the runtime table, and have a valid current temperature. -/
def involved_rooms (shared_map : List String)
    (runtime : String → Option RoomState) : List String :=
  shared_map.filter
    (fun room_id =>
      match runtime room_id with
      | some st => st.enabled ∧ st.current_temp.isSome
      | none => false)

/-- The command `_async_apply_shared` hands to `_async_set_climate` for one
shared device: direction and aggregate target. -/
structure SharedCommand where
  target : ℚ
  is_heating : Bool
deriving DecidableEq, Repr

/-- Decision of `_async_apply_shared` (`coordinator.py` lines 653-692) for a
single shared device: `none` means the device is skipped this cycle (no
set-HVAC-mode or set-temperature call, per-device action state untouched),
`some` carries the arbitration winner's direction and the aggregate target
(max of involved targets when heating, min when cooling). -/
def apply_shared_device (strategy priority_room : String)
    (shared_map : List String) (runtime : String → Option RoomState)
    (room_target : String → ℚ) (demands : List Demand) : Option SharedCommand :=
  let involved := involved_rooms shared_map runtime
  if involved = [] then none
  else
    match select_shared_demand strategy priority_room demands with
    | none => none
    | some selected =>
      let heating := selected.direction = "heat"
      let target :=
        if heating then maxList (involved.map room_target)
        else minList (involved.map room_target)
      some ⟨target, heating⟩

/-- Per-room inputs of one pass of the `_async_run_control_cycle` room loop
(`coordinator.py` lines 363-407) that determine whether the room contributes
a shared demand. -/
structure CycleRoom where
  room_id : String
  enabled : Bool
  current_temp : Option ℚ
  target_temp : ℚ
  tolerance : ℚ
  shared_climates : List String
deriving DecidableEq, Repr

/-- Shared-demand contribution of one room in `_async_run_control_cycle`:
a room with no valid temperature (lines 376-388), or with mode off /
disabled (lines 390-400), contributes nothing; otherwise it demands heat
when `target - current > tolerance`, else cool when
`current - target > tolerance`, else nothing (lines 404-502). -/
def room_demand (mode_off : Bool) (r : CycleRoom) : Option Demand :=
  match r.current_temp with
  | none => none
  | some current =>
    if mode_off ∨ r.enabled = false then none
    else
      let diff_heat := r.target_temp - current
      let diff_cool := current - r.target_temp
      if r.tolerance < diff_heat then some ⟨r.room_id, "heat", diff_heat⟩
      else if r.tolerance < diff_cool then some ⟨r.room_id, "cool", diff_cool⟩
      else none

/-- The demand list collected for one shared device over the room loop
(`shared_demands[shared].append(...)`, appended in room-iteration order for
every demanding room listing the device). -/
def collect_shared_demands (mode_off : Bool) (rooms : List CycleRoom)
    (entity_id : String) : List Demand :=
  rooms.filterMap
    (fun r =>
      match room_demand mode_off r with
      | some d => if entity_id ∈ r.shared_climates then some d else none
      | none => none)

/-! Helper lemmas about first-occurrence de-duplication. -/

theorem mem_dedupFirstAux {a : String} :
    ∀ (l seen : List String), a ∈ dedupFirstAux seen l ↔ a ∈ l ∧ a ∉ seen := by
  intro l
  induction l with
  | nil => intro seen; simp [dedupFirstAux]
  | cons x xs ih =>
    intro seen
    by_cases hx : x ∈ seen
    · rw [dedupFirstAux, if_pos hx, ih seen]
      constructor
      · rintro ⟨h1, h2⟩
        exact ⟨List.mem_cons_of_mem _ h1, h2⟩
      · rintro ⟨h1, h2⟩
        rcases List.mem_cons.mp h1 with h | h
        · exact absurd (h ▸ hx) h2
        · exact ⟨h, h2⟩
    · rw [dedupFirstAux, if_neg hx]
      by_cases hax : a = x
      · subst hax
        simp [hx]
      · rw [List.mem_cons, ih (x :: seen)]
        simp [List.mem_cons, hax]

theorem dedupFirstAux_sublist : ∀ (l seen : List String), (dedupFirstAux seen l).Sublist l := by
  intro l
  induction l with
  | nil => intro seen; simp [dedupFirstAux]
  | cons x xs ih =>
    intro seen
    by_cases hx : x ∈ seen
    · rw [dedupFirstAux, if_pos hx]
      exact (ih seen).cons x
    · rw [dedupFirstAux, if_neg hx]
      exact (ih (x :: seen)).cons₂ x

theorem nodup_dedupFirstAux : ∀ (l seen : List String), (dedupFirstAux seen l).Nodup := by
  intro l
  induction l with
  | nil => intro seen; simp [dedupFirstAux]
  | cons x xs ih =>
    intro seen
    by_cases hx : x ∈ seen
    · rw [dedupFirstAux, if_pos hx]
      exact ih seen
    · rw [dedupFirstAux, if_neg hx]
      refine List.nodup_cons.mpr ⟨fun hmem => ?_, ih (x :: seen)⟩
      exact ((mem_dedupFirstAux xs (x :: seen)).mp hmem).2 (List.mem_cons_self x seen)

theorem pairwise_indexOf_dedupFirstAux :
    ∀ (l seen : List String),
      List.Pairwise (fun a b => List.indexOf a l < List.indexOf b l) (dedupFirstAux seen l) := by
  intro l
  induction l with
  | nil => intro seen; simp [dedupFirstAux]
  | cons x xs ih =>
    intro seen
    have transfer : ∀ seen' : List String, x ∈ seen' →
        List.Pairwise (fun a b => List.indexOf a (x :: xs) < List.indexOf b (x :: xs))
          (dedupFirstAux seen' xs) := by
      intro seen' hxs
      refine List.Pairwise.imp_of_mem ?_ (ih seen')
      intro a b ha hb hab
      have hax : a ≠ x := fun he => ((mem_dedupFirstAux xs seen').mp ha).2 (he ▸ hxs)
      have hbx : b ≠ x := fun he => ((mem_dedupFirstAux xs seen').mp hb).2 (he ▸ hxs)
      rw [List.indexOf_cons_ne _ (Ne.symm hax), List.indexOf_cons_ne _ (Ne.symm hbx)]
      exact Nat.succ_lt_succ hab
    by_cases hx : x ∈ seen
    · rw [dedupFirstAux, if_pos hx]
      exact transfer seen hx
    · rw [dedupFirstAux, if_neg hx]
      refine List.pairwise_cons.mpr ⟨?_, transfer (x :: seen) (List.mem_cons_self x seen)⟩
      intro b hb
      have hbx : b ≠ x := fun he =>
        ((mem_dedupFirstAux xs (x :: seen)).mp hb).2 (he ▸ List.mem_cons_self x seen)
      rw [List.indexOf_cons_self, List.indexOf_cons_ne _ (Ne.symm hbx)]
      exact Nat.succ_pos _

theorem mem_dedupFirst {a : String} {l : List String} : a ∈ dedupFirst l ↔ a ∈ l := by
  rw [dedupFirst, mem_dedupFirstAux]
  simp

theorem nodup_dedupFirst (l : List String) : (dedupFirst l).Nodup :=
  nodup_dedupFirstAux l []

theorem pairwise_indexOf_dedupFirst (l : List String) :
    List.Pairwise (fun a b => List.indexOf a l < List.indexOf b l) (dedupFirst l) :=
  pairwise_indexOf_dedupFirstAux l []

/-! Unfolding lemmas for the clamped tier count of `merge_categories`. -/

theorem merge_categories_le_one (c1 c2 c3 : List String) {n : ℤ} (hn : n ≤ 1) :
    merge_categories c1 c2 c3 n = dedupFirst c1 := by
  have hk : min (max n 1) 3 = 1 := by omega
  rw [merge_categories]
  simp [hk]

theorem merge_categories_two (c1 c2 c3 : List String) :
    merge_categories c1 c2 c3 2 = dedupFirst (c1 ++ c2) := by
  rw [merge_categories]
  norm_num

theorem merge_categories_ge_three (c1 c2 c3 : List String) {n : ℤ} (hn : 3 ≤ n) :
    merge_categories c1 c2 c3 n = dedupFirst (c1 ++ c2 ++ c3) := by
  have hk : min (max n 1) 3 = 3 := by omega
  rw [merge_categories]
  simp [hk]

theorem indexOf_append_left2 {a : String} {c1 c2 c3 : List String} (h : a ∈ c1) :
    List.indexOf a (c1 ++ c2 ++ c3) = List.indexOf a c1 := by
  rw [List.indexOf_append_of_mem (List.mem_append_left c2 h), List.indexOf_append_of_mem h]

/-- C8: for all device lists `c1 c2 c3`, the results of
`merge_categories c1 c2 c3 n` for `n = 1, 2, 3` contain no duplicates, are
non-decreasing by inclusion as `n` grows (tier `n` is exactly the union of
the first `n` lists), and list their elements in the first-seen order of
the concatenation `c1 ++ c2 ++ c3`. -/
theorem merge_categories_cumulative (c1 c2 c3 : List String) :
    ((merge_categories c1 c2 c3 1).Nodup ∧ (merge_categories c1 c2 c3 2).Nodup ∧
      (merge_categories c1 c2 c3 3).Nodup)
    ∧ (∀ x, x ∈ merge_categories c1 c2 c3 1 → x ∈ merge_categories c1 c2 c3 2)
    ∧ (∀ x, x ∈ merge_categories c1 c2 c3 2 → x ∈ merge_categories c1 c2 c3 3)
    ∧ (∀ x, x ∈ merge_categories c1 c2 c3 1 ↔ x ∈ c1)
    ∧ (∀ x, x ∈ merge_categories c1 c2 c3 2 ↔ x ∈ c1 ++ c2)
    ∧ (∀ x, x ∈ merge_categories c1 c2 c3 3 ↔ x ∈ c1 ++ c2 ++ c3)
    ∧ List.Pairwise
        (fun a b => List.indexOf a (c1 ++ c2 ++ c3) < List.indexOf b (c1 ++ c2 ++ c3))
        (merge_categories c1 c2 c3 1)
    ∧ List.Pairwise
        (fun a b => List.indexOf a (c1 ++ c2 ++ c3) < List.indexOf b (c1 ++ c2 ++ c3))
        (merge_categories c1 c2 c3 2)
    ∧ List.Pairwise
        (fun a b => List.indexOf a (c1 ++ c2 ++ c3) < List.indexOf b (c1 ++ c2 ++ c3))
        (merge_categories c1 c2 c3 3) := by
  have h1 : merge_categories c1 c2 c3 1 = dedupFirst c1 :=
    merge_categories_le_one c1 c2 c3 (le_refl 1)
  have h2 : merge_categories c1 c2 c3 2 = dedupFirst (c1 ++ c2) :=
    merge_categories_two c1 c2 c3
  have h3 : merge_categories c1 c2 c3 3 = dedupFirst (c1 ++ c2 ++ c3) :=
    merge_categories_ge_three c1 c2 c3 (le_refl 3)
  rw [h1, h2, h3]
  refine ⟨⟨nodup_dedupFirst c1, nodup_dedupFirst _, nodup_dedupFirst _⟩, ?_, ?_, ?_, ?_, ?_, ?_, ?_, ?_⟩
  · intro x hx
    exact mem_dedupFirst.mpr (List.mem_append_left c2 (mem_dedupFirst.mp hx))
  · intro x hx
    exact mem_dedupFirst.mpr (List.mem_append_left c3 (mem_dedupFirst.mp hx))
  · intro x; exact mem_dedupFirst
  · intro x; exact mem_dedupFirst
  · intro x; exact mem_dedupFirst
  · refine List.Pairwise.imp_of_mem ?_ (pairwise_indexOf_dedupFirst c1)
    intro a b ha hb hab
    rw [indexOf_append_left2 (mem_dedupFirst.mp ha), indexOf_append_left2 (mem_dedupFirst.mp hb)]
    exact hab
  · refine List.Pairwise.imp_of_mem ?_ (pairwise_indexOf_dedupFirst (c1 ++ c2))
    intro a b ha hb hab
    rw [List.indexOf_append_of_mem (mem_dedupFirst.mp ha),
      List.indexOf_append_of_mem (mem_dedupFirst.mp hb)]
    exact hab
  · exact pairwise_indexOf_dedupFirst (c1 ++ c2 ++ c3)

/-- C10: `merge_categories` clamps its `active_category` argument into
`[1, 3]`: the value `0` (the "no active tier" marker of `RoomRuntime`) and
every value below `1` yield the de-duplicated tier-1 list, and every value
above `3` behaves exactly like `3`. -/
theorem merge_categories_clamps (c1 c2 c3 : List String) :
    merge_categories c1 c2 c3 0 = dedupFirst c1
    ∧ (∀ n : ℤ, n ≤ 1 → merge_categories c1 c2 c3 n = dedupFirst c1)
    ∧ (∀ n : ℤ, 3 ≤ n → merge_categories c1 c2 c3 n = merge_categories c1 c2 c3 3) := by
  refine ⟨merge_categories_le_one c1 c2 c3 (by norm_num), ?_, ?_⟩
  · intro n hn
    exact merge_categories_le_one c1 c2 c3 hn
  · intro n hn
    rw [merge_categories_ge_three c1 c2 c3 hn,
      merge_categories_ge_three c1 c2 c3 (le_refl 3)]

/-- Witness for C10 at a concrete input: `active_category = 0` returns the
de-duplicated tier-1 list, and `active_category = 5` agrees with `3`. -/
theorem merge_categories_clamps_witness :
    merge_categories ["a", "b", "a"] ["c"] ["d"] 0 = ["a", "b"]
    ∧ merge_categories ["a", "b", "a"] ["c"] ["d"] 5 =
        merge_categories ["a", "b", "a"] ["c"] ["d"] 3 := by
  have h := merge_categories_clamps ["a", "b", "a"] ["c"] ["d"]
  exact ⟨h.1.trans (by decide), h.2.2 5 (by decide)⟩

/-- C1: for every profile and phase, `next_phase_and_offset` returns
`(hold, 0)` whenever the target is reached; otherwise from `idle` or `hold`
it starts boost at `min(step_offset, max_offset)` for `normal` and at
`max_offset` for `fast`/`extreme`; and from `boost`, profile `normal` ramps
by one `step_offset` clamped to `max_offset` exactly when
`elapsed_boost_seconds ≥ t_time` (keeping the offset otherwise), while
`fast`/`extreme` pin the offset at `max_offset`, the phase staying `boost`. -/
theorem next_phase_and_offset_cases (ct : ControlType) (ph : Phase) (reached : Bool)
    (cur step maxo elapsed t : ℚ) :
    (reached = true →
      next_phase_and_offset ct ph reached cur step maxo elapsed t = (Phase.hold, 0))
    ∧ (reached = false → (ph = Phase.idle ∨ ph = Phase.hold) →
      next_phase_and_offset ct ph reached cur step maxo elapsed t =
        (Phase.boost, if ct = ControlType.normal then min step maxo else maxo))
    ∧ (reached = false → ph = Phase.boost → ct = ControlType.normal →
      next_phase_and_offset ct ph reached cur step maxo elapsed t =
        (Phase.boost, if t ≤ elapsed then min (cur + step) maxo else cur))
    ∧ (reached = false → ph = Phase.boost →
        (ct = ControlType.fast ∨ ct = ControlType.extreme) →
      next_phase_and_offset ct ph reached cur step maxo elapsed t =
        (Phase.boost, maxo)) := by
  refine ⟨?_, ?_, ?_, ?_⟩
  · intro hr
    subst hr
    simp [next_phase_and_offset]
  · intro hr hph
    subst hr
    rcases hph with h | h <;> subst h <;> cases ct <;> simp [next_phase_and_offset]
  · intro hr hph hct
    subst hr
    subst hph
    subst hct
    by_cases hte : t ≤ elapsed <;> simp [next_phase_and_offset, hte]
  · intro hr hph hct
    subst hr
    subst hph
    rcases hct with h | h <;> subst h <;> simp [next_phase_and_offset]

/-- Witness for C1 at concrete inputs: reached yields `(hold, 0)`; `normal`
from `hold` starts at `min step max`; `normal` in boost past `t_time` ramps
to `min (cur + step) max`; `fast` in boost pins `max_offset`. -/
theorem next_phase_and_offset_cases_witness :
    next_phase_and_offset ControlType.normal Phase.idle true 0 1 2 0 300 = (Phase.hold, 0)
    ∧ next_phase_and_offset ControlType.normal Phase.hold false 0 1 2 0 300 = (Phase.boost, 1)
    ∧ next_phase_and_offset ControlType.normal Phase.boost false 1 1 2 400 300 = (Phase.boost, 2)
    ∧ next_phase_and_offset ControlType.fast Phase.boost false 0 1 2 0 300 = (Phase.boost, 2) := by
  have h1 := (next_phase_and_offset_cases ControlType.normal Phase.idle true 0 1 2 0 300).1 rfl
  have h2 := (next_phase_and_offset_cases ControlType.normal Phase.hold false 0 1 2 0 300).2.1
    rfl (Or.inr rfl)
  have h3 := (next_phase_and_offset_cases ControlType.normal Phase.boost false 1 1 2 400 300).2.2.1
    rfl rfl rfl
  have h4 := (next_phase_and_offset_cases ControlType.fast Phase.boost false 0 1 2 0 300).2.2.2
    rfl rfl (Or.inl rfl)
  norm_num at h2 h3 h4
  exact ⟨h1, h2, h3, h4⟩

/-- C4 counterexample: for heating with `target = 20`, `tolerance = 1`,
`delta = 2`, `current = 17`, the drift past the hold edge `target - tolerance`
equals `delta` exactly, yet `should_reenter_boost` is already `true` (the
source tests `current <= edge - delta` inclusively), contradicting the
claim that it is still false there. -/
theorem should_reenter_boost_at_exact_delta :
    ((20 : ℚ) - 1) - 17 = 2 ∧ should_reenter_boost 17 20 1 2 true = true := by
  constructor
  · norm_num
  · norm_num [should_reenter_boost]

/-- C4 amended: for heating (with `delta > 0`), `should_reenter_boost` is
false when `current` equals `target - tolerance` exactly, and is true
exactly when the drift reaches `delta`, i.e. iff
`current ≤ (target - tolerance) - delta` — in particular it is already true
when the drift equals `delta` exactly; symmetrically for cooling about
`target + tolerance`. -/
theorem should_reenter_boost_hysteresis (current target tolerance delta : ℚ)
    (hdelta : 0 < delta) :
    should_reenter_boost (target - tolerance) target tolerance delta true = false
    ∧ (should_reenter_boost current target tolerance delta true = true ↔
        current ≤ (target - tolerance) - delta)
    ∧ (should_reenter_boost current target tolerance delta false = true ↔
        (target + tolerance) + delta ≤ current) := by
  refine ⟨?_, ?_, ?_⟩
  · simp only [should_reenter_boost, if_pos]
    simp only [decide_eq_false_iff_not, not_le]
    linarith
  · simp [should_reenter_boost]
  · simp [should_reenter_boost]

/-- Witness for C4 amended at a concrete input: at the hold edge the
re-entry test is false, and at drift 3 past the edge (with `delta = 2`) it
is true. -/
theorem should_reenter_boost_hysteresis_witness :
    should_reenter_boost ((20 : ℚ) - 1) 20 1 2 true = false
    ∧ (should_reenter_boost 16 20 1 2 true = true ↔ (16 : ℚ) ≤ (20 - 1) - 2) := by
  have h := should_reenter_boost_hysteresis 16 20 1 2 (by norm_num)
  exact ⟨h.1, h.2.1⟩

theorem select_category_eq (d : ℚ) (t : Thresholds) (ac : Bool) :
    select_category d t ac =
      if d < t.category2_diff then 1
      else if d < t.category3_diff then 2
      else if ac then 3 else 2 := by
  rw [select_category]
  by_cases a : d < t.category2_diff
  · simp [a]
  · by_cases b : d < t.category3_diff
    · simp [a, b]
    · cases ac <;> simp [a, b]

/-- C5: for thresholds with `category2_diff < category3_diff` and
non-negative diffs, `select_category` is monotone non-decreasing in the
diff, always lands in `{1, 2, 3}`, never returns `3` when AC is not
allowed, and a raw result of `3` is degraded to `2` in that case. -/
theorem select_category_props (t : Thresholds)
    (ht : t.category2_diff < t.category3_diff) :
    (∀ d1 d2 : ℚ, 0 ≤ d1 → d1 ≤ d2 → ∀ ac : Bool,
      select_category d1 t ac ≤ select_category d2 t ac)
    ∧ (∀ d : ℚ, 0 ≤ d → ∀ ac : Bool,
      select_category d t ac = 1 ∨ select_category d t ac = 2 ∨ select_category d t ac = 3)
    ∧ (∀ d : ℚ, select_category d t false ≠ 3)
    ∧ (∀ d : ℚ, select_category d t true = 3 → select_category d t false = 2) := by
  refine ⟨?_, ?_, ?_, ?_⟩
  · intro d1 d2 _ hle ac
    rw [select_category_eq, select_category_eq]
    split_ifs <;> first | omega | (exfalso; linarith)
  · intro d _ ac
    rw [select_category_eq]
    split_ifs <;> simp
  · intro d
    rw [select_category_eq]
    split_ifs <;> simp_all
  · intro d h3
    rw [select_category_eq] at h3 ⊢
    split_ifs at h3 ⊢ <;> first | rfl | omega | simp_all

/-- Witness for C5 with thresholds `(1, 2)`: monotone between diffs `0` and
`3`, and diff `3` with AC disallowed does not give category `3`. -/
theorem select_category_props_witness :
    select_category 0 ⟨1, 2⟩ true ≤ select_category 3 ⟨1, 2⟩ true
    ∧ select_category 3 ⟨1, 2⟩ false ≠ 3 := by
  have h := select_category_props ⟨1, 2⟩ (by norm_num)
  exact ⟨h.1 0 3 (by norm_num) (by norm_num) true, h.2.2.1 3⟩

/-- C7: whenever both device limits are provided with
`climate_min_temp ≤ climate_max_temp`, the value of `compute_setpoint` lies
within `[climate_min_temp, climate_max_temp]` for every target, offset,
direction and profile — including the `extreme` profile's bypass to the
favorable hard limit. -/
theorem compute_setpoint_clamped (target offset lo hi : ℚ) (heating : Bool)
    (ct : ControlType) (h : lo ≤ hi) :
    lo ≤ compute_setpoint target heating ct offset (some lo) (some hi)
    ∧ compute_setpoint target heating ct offset (some lo) (some hi) ≤ hi := by
  have hmin : ∀ raw : ℚ, lo ≤ min (max raw lo) hi ∧ min (max raw lo) hi ≤ hi :=
    fun raw => ⟨le_min (le_max_right raw lo) h, min_le_right _ hi⟩
  cases ct with
  | extreme =>
    cases heating with
    | false => exact ⟨le_refl lo, h⟩
    | true => exact ⟨h, le_refl hi⟩
  | normal =>
    cases heating with
    | false => exact hmin (target - offset)
    | true => exact hmin (target + offset)
  | fast =>
    cases heating with
    | false => exact hmin (target - offset)
    | true => exact hmin (target + offset)

/-- Witness for C7: with device limits `[16, 24]`, a huge offset is clamped
into the window. -/
theorem compute_setpoint_clamped_witness :
    (16 : ℚ) ≤ compute_setpoint 22 true ControlType.normal 100 (some 16) (some 24)
    ∧ compute_setpoint 22 true ControlType.normal 100 (some 16) (some 24) ≤ 24 :=
  compute_setpoint_clamped 22 100 16 24 true ControlType.normal (by norm_num)

/-- C9: `aggregate_temperature` returns `None` — not an error and not `0` —
on the empty reading list under every aggregation method, and applies the
configured method on non-empty input; in particular the `median` of
`[18, 20, 22]` is `20`. -/
theorem aggregate_temperature_empty_and_median :
    (∀ method : String, aggregate_temperature [] method = none)
    ∧ aggregate_temperature [18, 20, 22] "median" = some 20 := by
  constructor
  · intro method
    rw [aggregate_temperature]
    simp
  · rw [aggregate_temperature,
      if_neg (by decide : ¬([18, 20, 22] : List ℚ) = []),
      if_neg (by decide : ¬("median" : String) = "min"),
      if_neg (by decide : ¬("median" : String) = "max"),
      if_pos rfl]
    norm_num [median, sortRat, insertSorted]

/-- C3: with the outdoor reading missing and the missing-data policy
`block`, `_ac_allowed` is false, and then every climate device listed in
the room's `weather_sensitive_climates` (the configuration restricts the
list to `climate.*` entities) is removed by `filter_weather_sensitive`
from the candidate list `_async_apply_room_actions` iterates — for every
selected tier and direction, so an AC-gated device is never activated in
such a cycle however large the temperature deficit is. -/
theorem weather_sensitive_blocked (room : RoomConfig) (e : String)
    (minHeat maxCool : ℚ) (heating : Bool)
    (hmem : e ∈ room.weather_sensitive_climates)
    (hclimate : strStartsWith e "climate." = true) :
    ac_allowed none OutdoorPolicy.block minHeat maxCool heating = false
    ∧ ∀ category : ℤ,
        e ∉ room_action_candidates room heating category
            (ac_allowed none OutdoorPolicy.block minHeat maxCool heating) := by
  have hac : ac_allowed none OutdoorPolicy.block minHeat maxCool heating = false := by
    simp [ac_allowed]
  refine ⟨hac, ?_⟩
  intro category hin
  rw [hac] at hin
  simp only [room_action_candidates, filter_weather_sensitive, Bool.false_eq_true,
    if_false, List.mem_filter, decide_eq_true_eq] at hin
  exact hin.2 ⟨hclimate, hmem⟩

/-- Witness for C3: a room whose tier-3 heat device `climate.ac` is
weather-sensitive; with outdoor missing and policy `block` the device is
absent from the tier-3 candidates. -/
theorem weather_sensitive_blocked_witness :
    ac_allowed none OutdoorPolicy.block 5 25 true = false
    ∧ "climate.ac" ∉ room_action_candidates
        ⟨"kitchen", ["climate.heater"], [], ["climate.ac"], [], [], [], ["climate.ac"], []⟩
        true 3 (ac_allowed none OutdoorPolicy.block 5 25 true) := by
  have h := weather_sensitive_blocked
    ⟨"kitchen", ["climate.heater"], [], ["climate.ac"], [], [], [], ["climate.ac"], []⟩
    "climate.ac" 5 25 true (by decide) (by decide)
  exact ⟨h.1, h.2 3⟩

/-- C6: a room that is disabled or has no valid temperature contributes no
shared demand; a shared device whose involved-room set is empty is skipped
for the cycle (`apply_shared_device` issues no command, so no
set-HVAC-mode or set-temperature call is made and the per-device action
state is untouched); and when a single demand remains, the `max_demand`
arbitration selects exactly that demand. -/
theorem shared_device_skip_and_single (mode_off : Bool) (strategy priority : String)
    (shared_map : List String) (runtime : String → Option RoomState)
    (room_target : String → ℚ) (demands : List Demand)
    (hempty : involved_rooms shared_map runtime = []) :
    (∀ r : CycleRoom, r.enabled = false ∨ r.current_temp = none →
      room_demand mode_off r = none)
    ∧ apply_shared_device strategy priority shared_map runtime room_target demands = none
    ∧ (∀ d : Demand, ∀ p : String, select_shared_demand "max_demand" p [d] = some d) := by
  refine ⟨?_, ?_, ?_⟩
  · intro r hr
    cases ht : r.current_temp with
    | none => simp [room_demand, ht]
    | some c =>
      rcases hr with hd | hn
      · simp [room_demand, ht, hd]
      · rw [hn] at ht
        exact Option.noConfusion ht
  · rw [apply_shared_device]
    simp [hempty]
  · intro d p
    rw [select_shared_demand,
      if_neg (fun hc => absurd hc.1 (by decide)),
      if_neg (by decide : ¬("max_demand" : String) = "average_request")]
    rfl

/-- Witness for C6: three rooms all disabled (or temperature-less) leave
the shared device uncommanded; a disabled room demands nothing; a single
surviving demand wins `max_demand` arbitration. -/
theorem shared_device_skip_and_single_witness :
    room_demand false ⟨"r1", false, some 20, 22, 1, ["climate.shared"]⟩ = none
    ∧ apply_shared_device "max_demand" "" ["r1", "r2", "r3"]
        (fun rid =>
          if rid = "r1" then some ⟨false, some 20⟩
          else if rid = "r2" then some ⟨false, some 21⟩
          else if rid = "r3" then some ⟨false, none⟩
          else none)
        (fun _ => 21) [] = none
    ∧ select_shared_demand "max_demand" "" [⟨"r4", "heat", 2⟩] = some ⟨"r4", "heat", 2⟩ := by
  have h := shared_device_skip_and_single false "max_demand" "" ["r1", "r2", "r3"]
    (fun rid =>
      if rid = "r1" then some ⟨false, some 20⟩
      else if rid = "r2" then some ⟨false, some 21⟩
      else if rid = "r3" then some ⟨false, none⟩
      else none)
    (fun _ => 21) []
    (by decide)
  exact ⟨h.1 ⟨"r1", false, some 20, 22, 1, ["climate.shared"]⟩ (Or.inl rfl), h.2.1,
    h.2.2 ⟨"r4", "heat", 2⟩ ""⟩

/-- C2, evaluated at the failing input: under strategy `priority_room` with
priority room `kitchen`, a demand list for a shared device that does not
contain the priority room makes `_async_apply_shared` skip the device
(`continue` when `selected is None`) — it is left uncommanded — even though
the `max_demand` rule would select the demand of room `living`.  This
contradicts the claimed fallback to `max_demand`. -/
theorem priority_room_no_fallback :
    apply_shared_device "priority_room" "kitchen" ["living"]
        (fun rid => if rid = "living" then some ⟨true, some 19⟩ else none)
        (fun _ => 21) [⟨"living", "heat", 2⟩] = none
    ∧ max_demand [⟨"living", "heat", 2⟩] = some ⟨"living", "heat", 2⟩ := by
  constructor
  · rfl
  · rfl

end SmartClimate
